import Mathlib

/-!
Shallow embedding of the ShikshaMitra REAP helper (src/app.py): the
rank-eligibility matching engine (College Predictor page), the ticket
submission pipeline (Submit Issue page), and the credential helpers
(register_user / login_user), together with theorems about them.
-/

namespace ShikshaMitra

/-! ## Matching engine (College Predictor page, app.py lines 154-194) -/

/-- Gender selectbox: "male" or "female". -/
inductive Gender where
  | male
  | female
deriving DecidableEq, Repr

/-- Reservation-category selectbox: "Gen", "EWS", "OBC", "SC", "ST". -/
inductive ResCategory where
  | Gen
  | EWS
  | OBC
  | SC
  | ST
deriving DecidableEq, Repr

/-- One row of the cutoff DataFrame: the Institute, Branch and category
(group label) columns, plus the raw string value of every other column,
looked up by column name (a pandas row has a value in every column of the
frame, so the lookup is a total function). -/
structure CutoffRow where
  institute : String
  branch : String
  category : String
  cells : String → String

/-- The cutoff DataFrame: its column schema and its rows in file order. -/
structure Catalog where
  columns : List String
  rows : List CutoffRow

/-- Result row of the predictor: the projection shown to the user, with the
resolved cutoff column renamed to Cutoff; none is the NaN/unknown marker. -/
structure ResultRow where
  institute : String
  branch : String
  cutoff : Option Int
deriving DecidableEq, Repr

/-- Python str.strip (pandas .str.strip): the string with leading and
trailing whitespace removed. -/
def pyStrip (s : String) : String :=
  String.mk (((s.data.dropWhile Char.isWhitespace).reverse.dropWhile
    Char.isWhitespace).reverse)

/-- Value of a decimal digit character. -/
def digitVal (c : Char) : Nat :=
  c.toNat - 48

/-- The natural number denoted by a list of decimal digits. -/
def digitsToNat (l : List Char) : Nat :=
  l.foldl (fun n c => 10 * n + digitVal c) 0

/-- Numeric coercion of one raw cell, modelling
pd.to_numeric(value, errors="coerce"): an entry that parses as a number
becomes that number, anything else becomes NaN (none). Cutoff entries are
integer ranks, so an optionally-signed decimal integer parse captures the
numeric case. -/
def toNumericCoerce (s : String) : Option Int :=
  match s.data with
  | [] => none
  | c :: rest =>
    if c = '-' then
      if rest ≠ [] ∧ rest.all Char.isDigit then
        some (-(Int.ofNat (digitsToNat rest)))
      else none
    else
      if (c :: rest).all Char.isDigit then
        some (Int.ofNat (digitsToNat (c :: rest)))
      else none

/-- category_column_map of app.py lines 172-178: Gen maps to the shared
column "gen" regardless of gender; each reserved category maps to a
male/female specific column. -/
def resolveColumn : ResCategory → Gender → String
  | ResCategory.Gen, _ => "gen"
  | ResCategory.EWS, g => if g = Gender.male then "mews" else "fews"
  | ResCategory.OBC, g => if g = Gender.male then "mobc" else "fobc"
  | ResCategory.SC, g => if g = Gender.male then "msc" else "fsc"
  | ResCategory.ST, g => if g = Gender.male then "mst" else "fst"

/-- The row-inclusion test of app.py lines 188-190:
(coerced value >= input_rank) | (coerced value is NaN).  In pandas a NaN
compares false under >=, and isna selects exactly the NaNs, so the
disjunction is: a numeric value passes iff it is >= the rank, a
non-numeric value always passes. -/
def eligiblePred (col : String) (rank : Int) (r : CutoffRow) : Bool :=
  match toNumericCoerce (r.cells col) with
  | some v => rank ≤ v
  | none => true

/-- Projection of app.py lines 191-193: keep Institute, Branch and the
resolved (coerced) cutoff column. -/
def projRow (col : String) (r : CutoffRow) : ResultRow :=
  { institute := r.institute, branch := r.branch,
    cutoff := toNumericCoerce (r.cells col) }

/-- The Predict button body, app.py lines 170-194: group filter on the
trimmed category column, column resolution, schema check, numeric
coercion, threshold-or-NaN filter, projection.  An error is the
st.error("Category column not found") branch. -/
def predict (df : Catalog) (gender : Gender) (sfs_gas : String)
    (category : ResCategory) (input_rank : Int) :
    Except String (List ResultRow) :=
  let filtered_df := df.rows.filter (fun r => pyStrip r.category == pyStrip sfs_gas)
  let category_column := resolveColumn category gender
  if category_column ∉ df.columns then
    Except.error ("Category column not found")
  else
    Except.ok (((filtered_df.filter (eligiblePred category_column input_rank)).map
      (projRow category_column)))

/-! ## Ticket submission pipeline (Submit Issue page, app.py lines 290-309) -/

/-- Outcome of a submission, one constructor per UI branch:
st.error (validation rejected), st.success (saved and mail sent),
st.warning (saved but mail failed). -/
inductive SubmitOutcome where
  | rejected (msg : String)
  | completed
  | persistedNotifyFailed (msg : String)
deriving DecidableEq, Repr

/-- The document passed to issues_collection().insert_one at app.py
lines 301-303: exactly the four submitted fields. -/
structure TicketDoc where
  name : String
  email : String
  mobile : String
  issue : String
deriving DecidableEq, Repr

/-- Modelled from the spec: the Ticket Store collaborator (MongoDB, not part
of src/) whose insert contract is
insert(Ticket-without-identity) -> TicketWithIdentity | StoreError, the
identity and creation timestamp being assigned by the store at persistence
time.  A stored ticket is the submitted document plus that system-assigned
identity and timestamp. -/
structure StoredTicket where
  id : Nat
  createdAt : Nat
  doc : TicketDoc
deriving DecidableEq, Repr

/-- Modelled from the spec: a successful Ticket Store insert at time now
durably appends the document, assigning it a fresh identity and the
creation timestamp. -/
def storeInsert (now : Nat) (store : List StoredTicket) (d : TicketDoc) :
    List StoredTicket :=
  store ++ [{ id := store.length, createdAt := now, doc := d }]

/-- The confirmation mail body built at app.py line 305. -/
def mailBody (name issue : String) : String :=
  "Hello " ++ name ++ ",\n\nThank you for submitting your issue.\n\nYour Issue: "
    ++ issue ++ "\n\nBest,\nShikshaMitra Support Team"

/-- The Submit button body, app.py lines 297-309, with the two external
collaborators passed in as parameters: insert is the Ticket Store call
(an Except.error models an uncaught pymongo exception, which the code
does not catch, so it propagates as the overall result), notify is
send_mail (only this call sits inside the try).  Validation is the raw
Python truthiness test `not (name and email and issue)`: an empty string
is falsy, nothing is trimmed, mobile is not checked.  The returned pair
is the resulting store contents and the outcome shown to the user. -/
def submit (insert : List StoredTicket → TicketDoc → Except String (List StoredTicket))
    (notify : String → String → String → Except String Unit)
    (store : List StoredTicket)
    (name email mobile issue : String) :
    Except String (List StoredTicket × SubmitOutcome) :=
  if name = "" ∨ email = "" ∨ issue = "" then
    Except.ok (store, SubmitOutcome.rejected ("Name, Email, and Issue are required."))
  else
    match insert store { name := name, email := email, mobile := mobile, issue := issue } with
    | Except.error e => Except.error e
    | Except.ok store2 =>
      match notify email ("Issue Submission Confirmation") (mailBody name issue) with
      | Except.ok _ => Except.ok (store2, SubmitOutcome.completed)
      | Except.error e =>
        Except.ok (store2, SubmitOutcome.persistedNotifyFailed ("Issue saved, but email failed: " ++ e))

/-- A Ticket Store whose inserts always succeed (the storeInsert model). -/
def okInsert (now : Nat) :
    List StoredTicket → TicketDoc → Except String (List StoredTicket) :=
  fun s d => Except.ok (storeInsert now s d)

/-! ## Credential helpers (app.py lines 43-52) -/

/-- One document of the users collection: a username and the stored
password field (which register_user fills with the generate_password_hash
output, never the plaintext). -/
structure UserRec where
  username : String
  password : String
deriving DecidableEq, Repr

/-- register_user, app.py lines 43-48, with generate_password_hash passed
in as the parameter hash (werkzeug, external): find_one on the username,
return the duplicate message if present, otherwise insert the username
with the hashed password and return None.  The pair is (returned error,
resulting users collection). -/
def register_user (hash : String → String) (store : List UserRec)
    (username pw : String) : Option String × List UserRec :=
  match store.find? (fun r => r.username == username) with
  | some _ => (some ("Username already exists"), store)
  | none => (none, store ++ [{ username := username, password := hash pw }])

/-- login_user, app.py lines 50-52, with check_password_hash passed in as
the parameter check.  Python returns `user and check_password_hash(...)`:
when find_one yields no document this is None (modelled none), otherwise
it is the boolean comparison (modelled some b). -/
def login_user (check : String → String → Bool) (store : List UserRec)
    (username pw : String) : Option Bool :=
  match store.find? (fun r => r.username == username) with
  | none => none
  | some user => some (check user.password pw)

/-! ## Concrete data for witnesses -/

/-- A concrete catalog row: the spec example
(institute X, branch CS, group SFS, mobc 4200). -/
def demoRow : CutoffRow :=
  { institute := "X", branch := "CS", category := "SFS",
    cells := fun c => if c = "mobc" then "4200" else "" }

/-- A row in another group (GAS) that would be numerically eligible. -/
def demoRowOther : CutoffRow :=
  { institute := "Y", branch := "EE", category := "GAS",
    cells := fun c => if c = "mobc" then "9000" else "" }

/-- A group-matching row whose mobc entry is one below the demo rank. -/
def demoRowBelow : CutoffRow :=
  { institute := "Z", branch := "ME", category := "SFS",
    cells := fun c => if c = "mobc" then "3999" else "" }

/-- A group-matching row whose mobc entry is non-numeric. -/
def demoRowNa : CutoffRow :=
  { institute := "W", branch := "CE", category := "SFS",
    cells := fun _ => "-" }

/-- The standard column schema of the cutoff CSV. -/
def demoColumns : List String :=
  ["Institute", "Branch", "category", "gen", "mews", "fews", "mobc", "fobc",
   "msc", "fsc", "mst", "fst"]

/-- A concrete catalog holding the four demo rows. -/
def demoCatalog : Catalog :=
  { columns := demoColumns,
    rows := [demoRow, demoRowOther, demoRowBelow, demoRowNa] }

/-- A concrete hash model for witnesses: prefixes its input, so it never
equals the plaintext. -/
def demoHash (s : String) : String :=
  "pbkdf2:sha256:" ++ s

/-- A concrete password check for witnesses: recompute-and-compare. -/
def demoCheck (stored pw : String) : Bool :=
  stored == demoHash pw

/-- A notifier that always fails (mail server down). -/
def downNotify : String → String → String → Except String Unit :=
  fun _ _ _ => Except.error ("mail down")

/-- A notifier that always succeeds. -/
def upNotify : String → String → String → Except String Unit :=
  fun _ _ _ => Except.ok ()

/-- The predictor output on the demo catalog for a male OBC query at
rank 4000 in group SFS: the 4200-cutoff row and the unknown-cutoff row. -/
def demoRes : List ResultRow :=
  [{ institute := "X", branch := "CS", cutoff := some 4200 },
   { institute := "W", branch := "CE", cutoff := none }]

/-- A catalog whose schema is missing every cutoff column. -/
def demoCatalogBare : Catalog :=
  { columns := ["Institute", "Branch", "category"], rows := [demoRow] }

/-- The ticket document built from the four submitted fields. -/
def ticketOf (name email mobile issue : String) : TicketDoc :=
  { name := name, email := email, mobile := mobile, issue := issue }

/-! ## Supporting lemmas -/

/-- The filter test of predict accepts a row exactly when every numeric
reading of its resolved cell is at least the rank (so non-numeric cells
always pass). -/
theorem eligiblePred_eq_true_iff (col : String) (rank : Int) (r : CutoffRow) :
    eligiblePred col rank r = true ↔
      ∀ v, toNumericCoerce (r.cells col) = some v → rank ≤ v := by
  unfold eligiblePred
  cases h : toNumericCoerce (r.cells col) with
  | none => simp
  | some v => simp

/-- When the resolved column is in the schema, predict returns the
filter-then-project pipeline on the group-matching rows. -/
theorem predict_eq_ok (df : Catalog) (g : Gender) (grp : String)
    (cat : ResCategory) (rank : Int) (res : List ResultRow)
    (hok : predict df g grp cat rank = Except.ok res) :
    res = ((df.rows.filter (fun r => pyStrip r.category == pyStrip grp)).filter
      (eligiblePred (resolveColumn cat g) rank)).map
        (projRow (resolveColumn cat g)) := by
  unfold predict at hok
  by_cases hc : resolveColumn cat g ∈ df.columns
  · simp only [hc, not_true_eq_false, if_false, Except.ok.injEq] at hok
    exact hok.symm
  · simp [hc] at hok

/-- Membership in the predictor output, unfolded to an existential over
catalog rows. -/
theorem predict_mem_characterisation (df : Catalog) (g : Gender) (grp : String)
    (cat : ResCategory) (rank : Int) (res : List ResultRow)
    (hok : predict df g grp cat rank = Except.ok res) (x : ResultRow) :
    x ∈ res ↔ ∃ r, r ∈ df.rows ∧ pyStrip r.category = pyStrip grp ∧
      eligiblePred (resolveColumn cat g) rank r = true ∧
      projRow (resolveColumn cat g) r = x := by
  rw [predict_eq_ok df g grp cat rank res hok]
  simp only [List.mem_map, List.mem_filter, beq_iff_eq]
  constructor
  · rintro ⟨r, ⟨⟨hr, hgrp⟩, hel⟩, hproj⟩
    exact ⟨r, hr, hgrp, hel, hproj⟩
  · rintro ⟨r, hr, hgrp, hel, hproj⟩
    exact ⟨r, ⟨⟨hr, hgrp⟩, hel⟩, hproj⟩

/-! ## Claim theorems -/

/-- Claim C1: for every catalog and every query, a group-matching record is
included in the result iff its resolved-column value parses as a number at
least the query rank, or does not parse at all; in particular a record
whose cutoff equals the rank is included, a record whose resolved cell
reads rank minus one fails the inclusion test, and a record with a
non-numeric resolved column is included for every rank. -/
theorem predict_inclusion_iff (df : Catalog) (g : Gender) (grp : String)
    (cat : ResCategory) (rank : Int) (res : List ResultRow)
    (hok : predict df g grp cat rank = Except.ok res) :
    (∀ x, x ∈ res ↔ ∃ r, r ∈ df.rows ∧ pyStrip r.category = pyStrip grp ∧
        (∀ v, toNumericCoerce (r.cells (resolveColumn cat g)) = some v → rank ≤ v) ∧
        projRow (resolveColumn cat g) r = x) ∧
    (∀ r, r ∈ df.rows → pyStrip r.category = pyStrip grp →
        toNumericCoerce (r.cells (resolveColumn cat g)) = some rank →
        projRow (resolveColumn cat g) r ∈ res) ∧
    (∀ r, r ∈ df.rows → pyStrip r.category = pyStrip grp →
        toNumericCoerce (r.cells (resolveColumn cat g)) = none →
        projRow (resolveColumn cat g) r ∈ res) ∧
    (∀ r, toNumericCoerce (r.cells (resolveColumn cat g)) = some (rank - 1) →
        eligiblePred (resolveColumn cat g) rank r = false) := by
  have hmem := predict_mem_characterisation df g grp cat rank res hok
  refine ⟨fun x => ?_, fun r hr hgrp hv => ?_, fun r hr hgrp hv => ?_, fun r hv => ?_⟩
  · rw [hmem x]
    constructor
    · rintro ⟨r, hr, hgrp, hel, hproj⟩
      exact ⟨r, hr, hgrp, (eligiblePred_eq_true_iff _ _ _).mp hel, hproj⟩
    · rintro ⟨r, hr, hgrp, hcond, hproj⟩
      exact ⟨r, hr, hgrp, (eligiblePred_eq_true_iff _ _ _).mpr hcond, hproj⟩
  · refine (hmem _).mpr ⟨r, hr, hgrp, ?_, rfl⟩
    rw [eligiblePred_eq_true_iff]
    intro v h
    rw [hv] at h
    injection h with h2
    omega
  · refine (hmem _).mpr ⟨r, hr, hgrp, ?_, rfl⟩
    rw [eligiblePred_eq_true_iff]
    intro v h
    rw [hv] at h
    simp at h
  · unfold eligiblePred
    rw [hv]
    simp only [decide_eq_false_iff_not]
    omega

/-- Witness for C1: in the demo catalog, the boundary row whose mobc cell
equals the query rank 4200 is included in the result. -/
theorem predict_inclusion_iff_witness :
    projRow (resolveColumn ResCategory.OBC Gender.male) demoRow ∈ demoRes :=
  (predict_inclusion_iff demoCatalog Gender.male ("SFS") ResCategory.OBC 4200
      demoRes rfl).2.1 demoRow (by simp [demoCatalog]) (by decide) (by decide)

/-- Claim C4: every row of the result is the projection of a catalog row
whose stripped groupLabel equals, case-sensitively, the query's stripped
groupLabel; a record from any other group never contributes a row, even
when numerically eligible. -/
theorem predict_group_isolation (df : Catalog) (g : Gender) (grp : String)
    (cat : ResCategory) (rank : Int) (res : List ResultRow)
    (hok : predict df g grp cat rank = Except.ok res) :
    ∀ x, x ∈ res →
      x ∈ (df.rows.filter (fun r => pyStrip r.category == pyStrip grp)).map
        (projRow (resolveColumn cat g)) := by
  intro x hx
  obtain ⟨r, hr, hgrp, _, hproj⟩ :=
    (predict_mem_characterisation df g grp cat rank res hok x).mp hx
  exact List.mem_map.mpr ⟨r, List.mem_filter.mpr ⟨hr, by simpa using hgrp⟩, hproj⟩

/-- Witness for C4: the demo result row of institute X arises from a
group-matching demo catalog row; note demoRowOther (group GAS, cutoff
9000) matches no query of group SFS. -/
theorem predict_group_isolation_witness :
    ({ institute := "X", branch := "CS", cutoff := some 4200 } : ResultRow) ∈
      (demoCatalog.rows.filter (fun r => pyStrip r.category == pyStrip ("SFS"))).map
        (projRow (resolveColumn ResCategory.OBC Gender.male)) :=
  predict_group_isolation demoCatalog Gender.male ("SFS") ResCategory.OBC 4000
    demoRes rfl _ (by decide)

/-- Claim C5: the matching engine is a pure function (equal calls give
equal results), each result row is the projection of a catalog row onto
(institute, branch, coerced-cutoff), and the result is a sublist of the
projected catalog rows in their original order (no re-sorting). -/
theorem predict_pure_projection_order (df : Catalog) (g : Gender) (grp : String)
    (cat : ResCategory) (rank : Int) (res : List ResultRow)
    (hok : predict df g grp cat rank = Except.ok res) :
    predict df g grp cat rank = predict df g grp cat rank ∧
    res.Sublist (df.rows.map (projRow (resolveColumn cat g))) ∧
    ∀ x, x ∈ res → ∃ r, r ∈ df.rows ∧ projRow (resolveColumn cat g) r = x := by
  refine ⟨rfl, ?_, fun x hx => ?_⟩
  · rw [predict_eq_ok df g grp cat rank res hok]
    exact List.Sublist.map _ ((List.filter_sublist _).trans (List.filter_sublist _))
  · obtain ⟨r, hr, _, _, hproj⟩ :=
      (predict_mem_characterisation df g grp cat rank res hok x).mp hx
    exact ⟨r, hr, hproj⟩

/-- Witness for C5: the demo result is a sublist of the demo catalog's
projected rows in catalog order. -/
theorem predict_pure_projection_order_witness :
    demoRes.Sublist (demoCatalog.rows.map (projRow (resolveColumn ResCategory.OBC Gender.male))) :=
  (predict_pure_projection_order demoCatalog Gender.male ("SFS") ResCategory.OBC
    4000 demoRes rfl).2.1

/-- Claim C6: when the resolved eligibility column is not in the catalog
schema, predict fails with the schema-mismatch error and returns no result
set; when the resolved column is a known column, predict returns a result
set (no schema-mismatch error). -/
theorem predict_schema_check (df : Catalog) (g : Gender) (grp : String)
    (cat : ResCategory) (rank : Int) :
    (resolveColumn cat g ∉ df.columns →
      predict df g grp cat rank = Except.error ("Category column not found")) ∧
    (resolveColumn cat g ∈ df.columns →
      ∃ res, predict df g grp cat rank = Except.ok res) := by
  constructor
  · intro hc
    unfold predict
    simp [hc]
  · intro hc
    unfold predict
    simp [hc]

/-- Witness for C6: on a catalog whose schema lacks the cutoff columns,
the male OBC query fails with the schema-mismatch error. -/
theorem predict_schema_check_witness :
    predict demoCatalogBare Gender.male ("SFS") ResCategory.OBC 4000 =
      Except.error ("Category column not found") :=
  (predict_schema_check demoCatalogBare Gender.male ("SFS") ResCategory.OBC 4000).1
    (by decide)

/-- Claim C10: every result row carries either the unknown marker or the
numeric parse of its originating row's resolved column, and every numeric
cutoff in the result is at least the query rank. -/
theorem predict_result_cutoff_invariant (df : Catalog) (g : Gender) (grp : String)
    (cat : ResCategory) (rank : Int) (res : List ResultRow)
    (hok : predict df g grp cat rank = Except.ok res) :
    (∀ x, x ∈ res → ∃ r, r ∈ df.rows ∧ projRow (resolveColumn cat g) r = x ∧
        x.cutoff = toNumericCoerce (r.cells (resolveColumn cat g))) ∧
    (∀ x, x ∈ res → ∀ v, x.cutoff = some v → rank ≤ v) := by
  constructor
  · intro x hx
    obtain ⟨r, hr, _, _, hproj⟩ :=
      (predict_mem_characterisation df g grp cat rank res hok x).mp hx
    exact ⟨r, hr, hproj, by rw [← hproj]; rfl⟩
  · intro x hx v hv
    obtain ⟨r, hr, _, hel, hproj⟩ :=
      (predict_mem_characterisation df g grp cat rank res hok x).mp hx
    have hcut : toNumericCoerce (r.cells (resolveColumn cat g)) = some v := by
      rw [← hproj] at hv
      exact hv
    exact (eligiblePred_eq_true_iff _ _ _).mp hel v hcut

/-- Witness for C10: the numeric cutoff 4200 shown in the demo result is
at least the query rank 4000. -/
theorem predict_result_cutoff_invariant_witness : (4000 : Int) ≤ 4200 :=
  (predict_result_cutoff_invariant demoCatalog Gender.male ("SFS") ResCategory.OBC
      4000 demoRes rfl).2
    { institute := "X", branch := "CS", cutoff := some 4200 } (by decide) 4200 rfl

/-- Claim C2: for a validated input, with a Ticket Store whose insert
succeeds and a Notifier that always fails, submit returns the
saved-but-email-failed outcome (not a hard failure) and the ticket
document is present in the resulting store. -/
theorem submit_durability_before_notify (now : Nat) (store : List StoredTicket)
    (notify : String → String → String → Except String Unit)
    (name email mobile issue err : String)
    (hname : name ≠ "") (hemail : email ≠ "") (hissue : issue ≠ "")
    (hnotify : ∀ a s b, notify a s b = Except.error err) :
    submit (okInsert now) notify store name email mobile issue =
      Except.ok (storeInsert now store (ticketOf name email mobile issue),
        SubmitOutcome.persistedNotifyFailed ("Issue saved, but email failed: " ++ err)) ∧
    ∃ t, t ∈ storeInsert now store (ticketOf name email mobile issue) ∧
      t.doc = ticketOf name email mobile issue := by
  constructor
  · unfold submit okInsert
    rw [if_neg (by simp [hname, hemail, hissue]), hnotify]
    rfl
  · exact ⟨⟨store.length, now, ticketOf name email mobile issue⟩,
      List.mem_append_right _ (List.mem_singleton.mpr rfl), rfl⟩

/-- Witness for C2: a concrete valid submission against the always-failing
notifier is saved and reported as saved-but-email-failed. -/
theorem submit_durability_before_notify_witness :
    submit (okInsert 7) downNotify []
        ("Asha") ("asha@example.com") ("99") ("portal rejects my form") =
      Except.ok (storeInsert 7 []
          (ticketOf ("Asha") ("asha@example.com") ("99") ("portal rejects my form")),
        SubmitOutcome.persistedNotifyFailed ("Issue saved, but email failed: mail down")) :=
  (submit_durability_before_notify 7 [] downNotify ("Asha") ("asha@example.com")
      ("99") ("portal rejects my form") ("mail down") (by decide) (by decide)
      (by decide) (fun _ _ _ => rfl)).1

/-- Counterexample to claim C3 as stated: a name of a single blank is empty
after stripping, yet submit does not reject it — the Ticket Store receives
the write and the notifier is invoked (here failing), so the claimed
trimmed-emptiness rejection does not hold. -/
theorem submit_whitespace_counterexample :
    pyStrip (" ") = "" ∧
    submit (okInsert 7) downNotify [] (" ") ("a@b.c") ("") ("help") =
      Except.ok ([⟨0, 7, ticketOf (" ") ("a@b.c") ("") ("help")⟩],
        SubmitOutcome.persistedNotifyFailed ("Issue saved, but email failed: mail down")) :=
  ⟨rfl, rfl⟩

/-- Claim C3 as amended: when name, email, or issueText is the empty string
(the code tests raw Python truthiness and applies no trimming), submit
returns the Rejected outcome, the Ticket Store is untouched (the result
holds for every insert function and the store comes back unchanged), and
no notification is attempted (the result holds for every notifier);
mobile is not validated. -/
theorem submit_empty_field_rejected
    (insert : List StoredTicket → TicketDoc → Except String (List StoredTicket))
    (notify : String → String → String → Except String Unit)
    (store : List StoredTicket) (name email mobile issue : String)
    (h : name = "" ∨ email = "" ∨ issue = "") :
    submit insert notify store name email mobile issue =
      Except.ok (store, SubmitOutcome.rejected ("Name, Email, and Issue are required.")) := by
  unfold submit
  rw [if_pos h]

/-- Witness for C3 (amended): an empty name is rejected with the store
unchanged, whatever the collaborators do. -/
theorem submit_empty_field_rejected_witness :
    submit (okInsert 0) downNotify [] ("") ("a@b.c") ("99") ("help") =
      Except.ok ([], SubmitOutcome.rejected ("Name, Email, and Issue are required.")) :=
  submit_empty_field_rejected (okInsert 0) downNotify [] ("") ("a@b.c") ("99")
    ("help") (Or.inl rfl)

/-- Claim C7: for every validated input, whenever submit succeeds the
resulting store is the old store with the submitted document appended
carrying a system-assigned identity and creation timestamp alongside the
four submitted fields (spec-modelled Ticket Store, see storeInsert). -/
theorem submit_persists_identity_timestamp (now : Nat) (store : List StoredTicket)
    (notify : String → String → String → Except String Unit)
    (name email mobile issue : String)
    (hname : name ≠ "") (hemail : email ≠ "") (hissue : issue ≠ "") :
    ∀ p, submit (okInsert now) notify store name email mobile issue = Except.ok p →
      p.1 = storeInsert now store (ticketOf name email mobile issue) ∧
      (⟨store.length, now, ticketOf name email mobile issue⟩ : StoredTicket) ∈ p.1 := by
  intro p hp
  unfold submit okInsert at hp
  rw [if_neg (by simp [hname, hemail, hissue])] at hp
  have hmem : (⟨store.length, now, ticketOf name email mobile issue⟩ : StoredTicket) ∈
      storeInsert now store (ticketOf name email mobile issue) :=
    List.mem_append_right _ (List.mem_singleton.mpr rfl)
  cases hn : notify email ("Issue Submission Confirmation") (mailBody name issue) with
  | ok u =>
    rw [hn] at hp
    cases hp
    exact ⟨rfl, hmem⟩
  | error e =>
    rw [hn] at hp
    cases hp
    exact ⟨rfl, hmem⟩

/-- Witness for C7: the concrete stored record of a valid submission
carries identity 0, timestamp 5 and the four submitted fields. -/
theorem submit_persists_identity_timestamp_witness :
    (⟨0, 5, ticketOf ("n") ("e") ("m") ("i")⟩ : StoredTicket) ∈
      (([⟨0, 5, ticketOf ("n") ("e") ("m") ("i")⟩], SubmitOutcome.completed) :
        List StoredTicket × SubmitOutcome).1 :=
  (submit_persists_identity_timestamp 5 [] upNotify ("n") ("e") ("m") ("i")
      (by decide) (by decide) (by decide)
      ([⟨0, 5, ticketOf ("n") ("e") ("m") ("i")⟩], SubmitOutcome.completed) rfl).2

/-- Claim C8: register_user reports the duplicate error exactly when the
username is already in the users collection (leaving it unchanged);
otherwise it appends a record holding the username and the one-way hash of
the secret, and every record of the resulting collection either predates
the call or holds the hash, never the plaintext (the hash parameter models
werkzeug generate_password_hash, whose output differs from its input). -/
theorem register_user_unique_hashed (hash : String → String)
    (store : List UserRec) (u p : String) :
    ((register_user hash store u p).1 = some ("Username already exists") ↔
      ∃ r, r ∈ store ∧ r.username = u) ∧
    ((∃ r, r ∈ store ∧ r.username = u) → (register_user hash store u p).2 = store) ∧
    ((¬∃ r, r ∈ store ∧ r.username = u) →
      (register_user hash store u p).2 = store ++ [⟨u, hash p⟩]) ∧
    (∀ r, r ∈ (register_user hash store u p).2 → r ∈ store ∨ r.password = hash p) := by
  unfold register_user
  cases hf : store.find? (fun r => r.username == u) with
  | some w =>
    have hw : w ∈ store ∧ w.username = u := by
      refine ⟨List.mem_of_find?_eq_some hf, ?_⟩
      have := List.find?_some hf
      simpa using this
    refine ⟨⟨fun _ => ⟨w, hw.1, hw.2⟩, fun _ => rfl⟩, fun _ => rfl, fun hno => ?_,
      fun r hr => Or.inl hr⟩
    exact absurd ⟨w, hw.1, hw.2⟩ hno
  | none =>
    have hno : ¬∃ r, r ∈ store ∧ r.username = u := by
      rintro ⟨r, hr, hu⟩
      have := List.find?_eq_none.mp hf r hr
      simp [hu] at this
    refine ⟨⟨fun h => absurd h (by simp), fun h => absurd h hno⟩,
      fun h => absurd h hno, fun _ => rfl, fun r hr => ?_⟩
    rcases List.mem_append.mp hr with hl | hl
    · exact Or.inl hl
    · right
      rw [List.mem_singleton.mp hl]

/-- Witness for C8: registering a fresh username stores the hashed secret,
not the plaintext. -/
theorem register_user_unique_hashed_witness :
    (register_user demoHash [] ("usr") ("secret")).2 = [⟨"usr", demoHash ("secret")⟩] :=
  (register_user_unique_hashed demoHash [] ("usr") ("secret")).2.2.1 (by simp)

/-- Counterexample to claim C9 as stated: login_user does not collapse the
two failure causes into one boolean false — a missing username yields the
Python None (`user and check(...)` short-circuits on the falsy None),
while a wrong secret yields the boolean False, and the two values differ. -/
theorem login_user_cause_leak_counterexample :
    login_user demoCheck [⟨"alice", demoHash ("pw")⟩] ("bob") ("pw") = none ∧
    (none : Option Bool) ≠ some false ∧
    login_user demoCheck [⟨"alice", demoHash ("pw")⟩] ("alice") ("bad") = some false :=
  ⟨rfl, by decide, rfl⟩

/-- Claim C9 as amended: login_user returns None (not False) when the
username is absent and the boolean hash-comparison result when it is
present; both failure causes yield a non-True (falsy) value, so the
caller's truthiness test treats them identically, but the raw return
value does distinguish no-such-user (None) from wrong-secret (False);
authentication succeeds only for a stored username whose hash check
passes. -/
theorem login_user_falsy_failures (check : String → String → Bool)
    (store : List UserRec) (u p : String) :
    ((∀ r, r ∈ store → r.username ≠ u) → login_user check store u p = none) ∧
    ((∀ r, r ∈ store → r.username ≠ u) → login_user check store u p ≠ some true) ∧
    (login_user check store u p = some true →
      ∃ r, r ∈ store ∧ r.username = u ∧ check r.password p = true) := by
  unfold login_user
  cases hf : store.find? (fun r => r.username == u) with
  | none =>
    exact ⟨fun _ => rfl, fun _ h => by simp at h, fun h => by simp at h⟩
  | some w =>
    have hw : w ∈ store ∧ w.username = u := by
      refine ⟨List.mem_of_find?_eq_some hf, ?_⟩
      have := List.find?_some hf
      simpa using this
    refine ⟨fun hno => absurd hw.2 (hno w hw.1), fun hno => absurd hw.2 (hno w hw.1),
      fun h => ⟨w, hw.1, hw.2, ?_⟩⟩
    simpa using h

/-- Witness for C9 (amended): against an empty users collection, login
returns None. -/
theorem login_user_falsy_failures_witness :
    login_user demoCheck [] ("usr") ("pw") = none :=
  (login_user_falsy_failures demoCheck [] ("usr") ("pw")).1 (by simp)

end ShikshaMitra
